import Mathlib

/-!
Verification development for the ticketeer backend payment-order pipeline.

The definitions below are shallow embeddings of the JavaScript source:
the receipt field parser and confidence scorer
(services/receiptVerification), the automatic verification tier router and
grace-period timer (routes/orders), and the admin verification, order
update and order creation handlers (routes/admin, routes/orders).
Machine numbers are modelled as rationals, persisted documents as
structures mirroring the mongoose schemas, and each HTTP handler as a pure
function from its inputs (loaded documents, request body, outcome of the
awaited side effects) to its response plus the final persisted state and a
trace of the side-effecting actions it performed, in order.
-/

namespace Ticketeer

/-- Payment status enumeration, exactly the `paymentStatus` enum of the
Order schema in models/Order.js. -/
inductive PaymentStatus where
  | pending
  | pending_verification
  | pending_auto_approval
  | pending_quick_review
  | pending_whatsapp_verification
  | completed
  | failed
  | refunded
deriving DecidableEq, Repr

/-- Parse a raw string into a member of the `paymentStatus` enum; `none`
models the mongoose validation failure on save for a value outside the
enum list of models/Order.js. -/
def paymentStatusOfString (s : String) : Option PaymentStatus :=
  if s = "pending" then some .pending
  else if s = "pending_verification" then some .pending_verification
  else if s = "pending_auto_approval" then some .pending_auto_approval
  else if s = "pending_quick_review" then some .pending_quick_review
  else if s = "pending_whatsapp_verification" then some .pending_whatsapp_verification
  else if s = "completed" then some .completed
  else if s = "failed" then some .failed
  else if s = "refunded" then some .refunded
  else none

/-- The `status` enum of the Order schema (distinct from `paymentStatus`). -/
inductive OrderStatus where
  | confirmed
  | cancelled
  | refunded
deriving DecidableEq, Repr

/-- Parse a raw string into the order `status` enum. -/
def orderStatusOfString (s : String) : Option OrderStatus :=
  if s = "confirmed" then some .confirmed
  else if s = "cancelled" then some .cancelled
  else if s = "refunded" then some .refunded
  else none

/-- The `paymentMethod` enum of the Order schema. -/
inductive PaymentMethod where
  | card
  | mcb_juice
  | mcb_juice_manual
  | mcb_juice_whatsapp
  | bank_transfer
  | bank_transfer_whatsapp
deriving DecidableEq, Repr

/-- Parse a raw string into the `paymentMethod` enum of models/Order.js. -/
def paymentMethodOfString (s : String) : Option PaymentMethod :=
  if s = "card" then some .card
  else if s = "mcb-juice" then some .mcb_juice
  else if s = "mcb-juice-manual" then some .mcb_juice_manual
  else if s = "mcb-juice-whatsapp" then some .mcb_juice_whatsapp
  else if s = "bank_transfer" then some .bank_transfer
  else if s = "bank-transfer-whatsapp" then some .bank_transfer_whatsapp
  else none

/-- The `reviewPriority` enum of the Order schema. -/
inductive ReviewPriority where
  | high
  | standard
deriving DecidableEq, Repr

/-- JavaScript truthiness of a possibly-absent number: `undefined`, `null`
and `0` are falsy. -/
def numTruthy : Option ℚ → Bool
  | none => false
  | some q => q != 0

/-- JavaScript truthiness of a possibly-absent string: `undefined`, `null`
and the empty string are falsy. -/
def strTruthy : Option String → Bool
  | none => false
  | some s => s != ""

/-- JavaScript `x || d` for a string-valued `x`: the default is used when
`x` is absent or empty. -/
def strOrDefault (x : Option String) (d : String) : String :=
  match x with
  | none => d
  | some s => if s = "" then d else s

/-! ## Receipt field parser (services/receiptVerification, parseReceiptData)

Each regular expression of the source is embedded as a character-level
matcher over `List Char`.  A matcher of type `List Char → Option α` decides
whether the pattern matches at the head of its argument; `scanFirst` turns
it into the leftmost-match search that a JavaScript `String.match` without
the global flag performs. -/

/-- JavaScript `\d` character class. -/
def isDigitCh (c : Char) : Bool := c.isDigit

/-- JavaScript `\w` character class: ASCII letters, digits and underscore. -/
def isWordCh (c : Char) : Bool := c.isAlphanum || c = '_'

/-- Numeric value of a digit run. -/
def digitsToNat (ds : List Char) : Nat :=
  ds.foldl (fun n c => 10 * n + (c.toNat - 48)) 0

/-- Leftmost-match search: try the matcher at every start position from
left to right and return the first success, as a JavaScript regex engine
does for a pattern that cannot match the empty string. -/
def scanFirst {α : Type} (f : List Char → Option α) : List Char → Option α
  | [] => none
  | c :: rest =>
    match f (c :: rest) with
    | some a => some a
    | none => scanFirst f rest

/-- Case-insensitive literal prefix: on success returns the remainder of
the input after the literal. -/
def stripPrefixCI : List Char → List Char → Option (List Char)
  | [], s => some s
  | _ :: _, [] => none
  | k :: ks, c :: cs => if k.toLower = c.toLower then stripPrefixCI ks cs else none

/-- Tail of the amount pattern after a currency marker matched:
whitespace, then digits with an optional two-digit decimal part — the
captured group of the amount regex, already run through `parseFloat`. -/
def amountTail (s : List Char) : Option ℚ :=
  let t := s.dropWhile Char.isWhitespace
  let ds := t.takeWhile isDigitCh
  if ds.isEmpty then none
  else
    match t.drop ds.length with
    | '.' :: d1 :: d2 :: _ =>
      if isDigitCh d1 && isDigitCh d2 then
        some ((digitsToNat ds : ℚ) + (digitsToNat [d1, d2] : ℚ) / 100)
      else some (digitsToNat ds : ℚ)
    | _ => some (digitsToNat ds : ℚ)

/-- Amount pattern at one position: a currency marker alternative
(case-insensitive), then `amountTail`. -/
def amountAt (s : List Char) : Option ℚ :=
  ["Rs", "MUR", "₨"].findSome? (fun kw => (stripPrefixCI kw.toList s).bind amountTail)

/-- Reference token `TCK\w+` at one position, capturing the token with its
original casing; the trailing word-character run is greedy. -/
def tckTokenAt : List Char → Option (List Char)
  | c1 :: c2 :: c3 :: rest =>
    if c1.toLower = 't' && c2.toLower = 'c' && c3.toLower = 'k' then
      let ws := rest.takeWhile isWordCh
      if ws.isEmpty then none else some ([c1, c2, c3] ++ ws)
    else none
  | _ => none

/-- Reference pattern at one position: one of the keyword alternatives,
then a lazy gap, then the first `TCK` token after it. -/
def referenceAt (s : List Char) : Option (List Char) :=
  ["ref", "reference", "note", "description"].findSome?
    (fun kw => (stripPrefixCI kw.toList s).bind (scanFirst tckTokenAt))

/-- A word-character run of length at least eight starting exactly here,
the captured group of the transaction id regex. -/
def wordRun8At (s : List Char) : Option (List Char) :=
  let ws := s.takeWhile isWordCh
  if ws.length ≥ 8 then some ws else none

/-- Transaction id pattern at one position: keyword alternative, lazy gap,
then the first long word run. -/
def transactionAt (s : List Char) : Option (List Char) :=
  ["transaction", "trans", "id"].findSome?
    (fun kw => (stripPrefixCI kw.toList s).bind (scanFirst wordRun8At))

/-- Date pattern at one position: one or two digits, a slash or dash, one
or two digits, a slash or dash, then two to four digits (greedy). -/
def dateAt (s : List Char) : Option (List Char) :=
  let d1 := s.takeWhile isDigitCh
  if d1.length = 0 ∨ d1.length > 2 then none else
  match s.drop d1.length with
  | sep1 :: r1 =>
    if sep1 = '/' ∨ sep1 = '-' then
      let d2 := r1.takeWhile isDigitCh
      if d2.length = 0 ∨ d2.length > 2 then none else
      match r1.drop d2.length with
      | sep2 :: r2 =>
        if sep2 = '/' ∨ sep2 = '-' then
          let d3 := r2.takeWhile isDigitCh
          if d3.length < 2 then none
          else some (d1 ++ [sep1] ++ d2 ++ [sep2] ++ d3.take 4)
        else none
      | [] => none
    else none
  | [] => none

/-- Time pattern at one position: one or two digits, a colon, two digits,
an optional seconds group, and an optional whitespace-then-AM/PM group. -/
def timeAt (s : List Char) : Option (List Char) :=
  let d1 := s.takeWhile isDigitCh
  if d1.length = 0 ∨ d1.length > 2 then none else
  match s.drop d1.length with
  | ':' :: r1 =>
    let d2 := r1.takeWhile isDigitCh
    if d2.length < 2 then none else
    let base := d1 ++ [':'] ++ d2.take 2
    let r2 := r1.drop 2
    let secPart :=
      match r2 with
      | ':' :: rr => if (rr.takeWhile isDigitCh).length ≥ 2 then [':'] ++ rr.take 2 else []
      | _ => []
    let r3 := r2.drop secPart.length
    let ampm :=
      let wsRun := r3.takeWhile Char.isWhitespace
      match r3.drop wsRun.length with
      | a :: m :: _ =>
        if (a.toLower = 'a' ∨ a.toLower = 'p') ∧ m.toLower = 'm' then wsRun ++ [a, m] else []
      | _ => []
    some (base ++ secPart ++ ampm)
  | _ => none

/-- Phone-number-shaped token at one position: optional plus, three
digits, optional single whitespace, four digits, optional single
whitespace, four digits. -/
def phoneAt (s : List Char) : Option (List Char) :=
  let (plusPart, r0) :=
    match s with
    | '+' :: r => (['+'], r)
    | _ => ([], s)
  if (r0.takeWhile isDigitCh).length < 3 then none else
  let r1 := r0.drop 3
  let (ws1, r1b) :=
    match r1 with
    | c :: rr => if c.isWhitespace then ([c], rr) else (([] : List Char), r1)
    | [] => ([], r1)
  if (r1b.takeWhile isDigitCh).length < 4 then none else
  let r2 := r1b.drop 4
  let (ws2, r2b) :=
    match r2 with
    | c :: rr => if c.isWhitespace then ([c], rr) else (([] : List Char), r2)
    | [] => ([], r2)
  if (r2b.takeWhile isDigitCh).length < 4 then none else
  some (plusPart ++ r0.take 3 ++ ws1 ++ r1b.take 4 ++ ws2 ++ r2b.take 4)

/-- Recipient pattern at one position: keyword alternative, lazy gap, then
the first phone-shaped token. -/
def recipientAt (s : List Char) : Option (List Char) :=
  ["to", "recipient"].findSome?
    (fun kw => (stripPrefixCI kw.toList s).bind (scanFirst phoneAt))

/-- Structured candidate record produced by the parser, mirroring the
`receiptData` object of parseReceiptData. -/
structure ReceiptData where
  amount : Option ℚ
  reference : Option String
  transactionId : Option String
  date : Option String
  time : Option String
  recipient : Option String
  rawText : String
deriving DecidableEq, Repr

/-- The initial candidate record: every field null, raw text kept. -/
def emptyReceipt (text : String) : ReceiptData :=
  ⟨none, none, none, none, none, none, text⟩

/-- Amount update of one loop iteration: guarded by
`amountMatch && !receiptData.amount`, so a previously found (truthy)
amount is never replaced. -/
def applyAmount (rd : ReceiptData) (cs : List Char) : ReceiptData :=
  match scanFirst amountAt cs with
  | some a => if numTruthy rd.amount then rd else { rd with amount := some a }
  | none => rd

/-- Reference update of one loop iteration: guarded only by
`if (referenceMatch)`, with no check that a reference was already found,
so a later matching line overwrites an earlier one. -/
def applyReference (rd : ReceiptData) (cs : List Char) : ReceiptData :=
  match scanFirst referenceAt cs with
  | some r => { rd with reference := some (String.mk r) }
  | none => rd

/-- Transaction id update of one loop iteration, guarded by
`transactionMatch && !receiptData.transactionId`. -/
def applyTransaction (rd : ReceiptData) (cs : List Char) : ReceiptData :=
  match scanFirst transactionAt cs with
  | some t => if strTruthy rd.transactionId then rd else { rd with transactionId := some (String.mk t) }
  | none => rd

/-- Date update of one loop iteration, guarded by
`dateMatch && !receiptData.date`. -/
def applyDate (rd : ReceiptData) (cs : List Char) : ReceiptData :=
  match scanFirst dateAt cs with
  | some d => if strTruthy rd.date then rd else { rd with date := some (String.mk d) }
  | none => rd

/-- Time update of one loop iteration, guarded by
`timeMatch && !receiptData.time`. -/
def applyTime (rd : ReceiptData) (cs : List Char) : ReceiptData :=
  match scanFirst timeAt cs with
  | some t => if strTruthy rd.time then rd else { rd with time := some (String.mk t) }
  | none => rd

/-- Recipient update of one loop iteration, guarded by
`recipientMatch && !receiptData.recipient`. -/
def applyRecipient (rd : ReceiptData) (cs : List Char) : ReceiptData :=
  match scanFirst recipientAt cs with
  | some r => if strTruthy rd.recipient then rd else { rd with recipient := some (String.mk r) }
  | none => rd

/-- One iteration of the parser loop over a trimmed nonempty line, in the
order of the source: amount, reference, transaction id, date, time,
recipient. -/
def parseLine (rd : ReceiptData) (line : String) : ReceiptData :=
  let cs := line.toList
  applyRecipient (applyTime (applyDate (applyTransaction (applyReference
    (applyAmount rd cs) cs) cs) cs) cs) cs

/-- JavaScript `split` on the newline character, at character level:
yields one (possibly empty) segment per newline-separated stretch. -/
def splitOnNewline : List Char → List (List Char)
  | [] => [[]]
  | c :: rest =>
    let r := splitOnNewline rest
    if c = '\n' then [] :: r
    else
      match r with
      | [] => [[c]]
      | hd :: tl => (c :: hd) :: tl

/-- JavaScript `trim`: strip leading and trailing whitespace. -/
def trimChars (cs : List Char) : List Char :=
  ((cs.dropWhile Char.isWhitespace).reverse.dropWhile Char.isWhitespace).reverse

/-- The line preprocessing of parseReceiptData: split on newline, trim
each line, keep nonempty lines. -/
def receiptLines (text : String) : List String :=
  ((splitOnNewline text.toList).map (fun cs => String.mk (trimChars cs))).filter
    (fun l => l.length > 0)

/-- parseReceiptData of services/receiptVerification: best-effort
structured candidate extracted from the raw OCR text. -/
def parseReceiptData (text : String) : ReceiptData :=
  (receiptLines text).foldl parseLine (emptyReceipt text)

/-! ## Verification scorer (services/receiptVerification, verifyReceipt)

The scoring section of verifyReceipt is embedded as a pure function of the
parsed candidate record and the expected order values; the surrounding
try/catch is embedded by `verifyReceipt` below, which takes the outcome of
the extraction step as an explicit argument. -/

/-- The itemized check booleans of a verification result. -/
structure ScoreChecks where
  amountMatch : Bool
  referenceMatch : Bool
  recipientMatch : Bool
  hasTransactionId : Bool
deriving DecidableEq, Repr

/-- The verification result object returned by verifyReceipt. -/
structure VerificationResult where
  isValid : Bool
  confidence : ℕ
  extractedData : Option ReceiptData
  checks : ScoreChecks
  issues : List String
  errorMessage : Option String
deriving DecidableEq, Repr

/-- JavaScript whitespace removal `replace(/\s/g, 'x')` with empty
replacement, used to normalize recipient strings. -/
def stripSpaces (s : String) : String :=
  String.mk (s.toList.filter (fun c => !c.isWhitespace))

/-- Case-sensitive literal prefix, companion of `stripPrefixCI` for the
case-sensitive containment check of the scorer. -/
def stripPrefixExact : List Char → List Char → Option (List Char)
  | [], s => some s
  | _ :: _, [] => none
  | k :: ks, c :: cs => if k = c then stripPrefixExact ks cs else none

/-- JavaScript `String.prototype.includes`: substring containment. -/
def strIncludes (s t : String) : Bool :=
  (List.range (s.toList.length + 1)).any
    (fun i => (stripPrefixExact t.toList (s.toList.drop i)).isSome)

/-- The scoring block of verifyReceipt (after extraction and parsing):
computes the four binary checks, the issue list, the weighted confidence
and the validity flag. -/
def scoreReceipt (rd : ReceiptData) (expectedAmount : ℚ) (expectedReference : String)
    (expectedRecipient : Option String) : VerificationResult :=
  let (amountMatch, amountIssues) :=
    match rd.amount with
    | some a =>
      if a ≠ 0 then
        if |a - expectedAmount| ≤ 1 / 100 then (true, ([] : List String))
        else (false, ["Amount mismatch: expected " ++ toString expectedAmount ++
                      ", found " ++ toString a])
      else (false, ["Amount not found in receipt"])
    | none => (false, ["Amount not found in receipt"])
  let (referenceMatch, referenceIssues) :=
    match rd.reference with
    | some r =>
      if r ≠ "" then
        if r = expectedReference then (true, ([] : List String))
        else (false, ["Reference mismatch: expected " ++ expectedReference ++
                      ", found " ++ r])
      else (false, ["Reference code not found in receipt"])
    | none => (false, ["Reference code not found in receipt"])
  let (recipientMatch, recipientIssues) :=
    match expectedRecipient, rd.recipient with
    | some er, some fr =>
      if er ≠ "" ∧ fr ≠ "" then
        let ne := stripSpaces er
        let nf := stripSpaces fr
        if strIncludes nf ne || strIncludes ne nf then (true, ([] : List String))
        else (false, ["Recipient mismatch: expected " ++ er ++ ", found " ++ fr])
      else (true, ([] : List String))
    | _, _ => (true, ([] : List String))
  let hasTransactionId := strTruthy rd.transactionId
  let score :=
    (if amountMatch then 40 else 0) + (if referenceMatch then 40 else 0) +
    (if recipientMatch then 10 else 0) + (if hasTransactionId then 10 else 0)
  { isValid := score ≥ 40
    confidence := score
    extractedData := some rd
    checks := ⟨amountMatch, referenceMatch, recipientMatch, hasTransactionId⟩
    issues := amountIssues ++ referenceIssues ++ recipientIssues
    errorMessage := none }

/-- The catch clause of verifyReceipt: any fault during extraction or
parsing is converted into a zero-confidence invalid result with the
generic issue string. -/
def failedVerification (msg : String) : VerificationResult :=
  { isValid := false
    confidence := 0
    extractedData := none
    checks := ⟨false, false, false, false⟩
    issues := ["Failed to process receipt image"]
    errorMessage := some msg }

/-- verifyReceipt of services/receiptVerification: the extraction outcome
is passed explicitly (the OCR engine is an external collaborator); on
success the text is parsed and scored, on failure the catch clause
produces the fail-safe result. -/
def verifyReceipt (extraction : Except String String) (expectedAmount : ℚ)
    (expectedReference : String) (expectedRecipient : Option String) : VerificationResult :=
  match extraction with
  | .ok text => scoreReceipt (parseReceiptData text) expectedAmount expectedReference expectedRecipient
  | .error msg => failedVerification msg

/-! ## Persisted records

Structures mirroring the mongoose schemas, restricted to the fields the
payment pipeline reads or writes.  Note the Order schema has an `eventId`
path and no `event` path. -/

/-- One ticket line item of an order (models/Order.js `tickets`). -/
structure TicketLine where
  ticketTypeId : String
  name : String
  quantity : ℤ
  price : ℚ
deriving DecidableEq, Repr

/-- One ticket type of an event (models/Event.js `ticketTypes`). -/
structure TicketType where
  id : String
  name : String
  price : ℚ
  quantity : ℤ
  sold : ℤ
deriving DecidableEq, Repr

/-- The parent event, restricted to identity and inventory. -/
structure EventRecord where
  id : String
  ticketTypes : List TicketType
deriving DecidableEq, Repr

/-- An order document (models/Order.js), restricted to the fields of the
verification pipeline.  Times are milliseconds since the epoch. -/
structure OrderRecord where
  id : String
  eventId : String
  tickets : List TicketLine
  totalAmount : ℚ
  paymentMethod : PaymentMethod
  paymentStatus : PaymentStatus
  paymentReference : Option String
  transferScreenshot : Option String
  verificationNotes : Option String
  verifiedBy : Option String
  verifiedAt : Option ℕ
  autoApprovalAt : Option ℕ
  reviewPriority : ReviewPriority
  orderStatus : OrderStatus
deriving DecidableEq, Repr

/-- Reading the `event` path of an order document: the Order schema
declares no such path, so the mongoose document yields undefined — this
is the expression `order.event` used by both reject handlers. -/
def OrderRecord.eventField (_ : OrderRecord) : Option EventRecord := none

/-- JavaScript `x += suffix` on a possibly-undefined string field:
undefined is coerced to the text "undefined". -/
def jsAppendNote (x : Option String) (suffix : String) : String :=
  (match x with
   | none => "undefined"
   | some s => s) ++ suffix

/-- Increment the quantity of the first matching ticket type, as the
positional `$` operator of the inventory update does. -/
def incFirstTicketType : List TicketType → String → ℤ → List TicketType
  | [], _, _ => []
  | tt :: rest, ttId, delta =>
    if tt.id = ttId then { tt with quantity := tt.quantity + delta } :: rest
    else tt :: incFirstTicketType rest ttId delta

/-- Models Event.findOneAndUpdate keyed on the event id and a ticket type
id with an increment of the matched quantity: a no-op when the filter
matches no document. -/
def eventIncTicketQuantity (e : EventRecord) (evId ttId : String) (delta : ℤ) : EventRecord :=
  if e.id = evId ∧ e.ticketTypes.any (fun tt => tt.id = ttId) then
    { e with ticketTypes := incFirstTicketType e.ticketTypes ttId delta }
  else e

/-- The inventory restoration loop of the reject handlers, had it run
against a resolved parent event id. -/
def restoreTicketQuantities (e : EventRecord) (evId : String) (tickets : List TicketLine) : EventRecord :=
  tickets.foldl (fun acc t => eventIncTicketQuantity acc evId t.ticketTypeId t.quantity) e

/-! ## Verification policy / tier router (routes/orders,
processAutomaticVerification) -/

/-- Side-effecting actions a handler performs, in order: persisting a
payment status, invoking fulfillment (ticket generation plus delivery),
a failed fulfillment invocation, or scheduling the grace-period timer. -/
inductive Act where
  | persist (s : PaymentStatus)
  | fulfill
  | fulfillFailed
  | scheduleTimer (fireAt : ℕ)
deriving DecidableEq, Repr

/-- The verification note written before branching:
confidence percentage plus the comma-joined issue list. -/
def verificationBaseNote (v : VerificationResult) : String :=
  "Automatic verification: " ++ toString v.confidence ++ "% confidence. Issues: " ++
    String.intercalate ", " v.issues

/-- Result of running the automatic verification router on one order. -/
structure RouteOutcome where
  order : OrderRecord
  trace : List Act
deriving DecidableEq, Repr

/-- The branch cascade of processAutomaticVerification, taken on the
verification result at decision time `now` (milliseconds), with the
persistence and fulfillment awaits succeeding.  The branch order is that
of the source: valid high confidence, then confidence at least 20, then a
second confidence-at-least-40 test, then the fail-open default. -/
def processAutomaticVerification (o : OrderRecord) (v : VerificationResult) (now : ℕ) :
    RouteOutcome :=
  let o0 := { o with verificationNotes := some (verificationBaseNote v) }
  if v.isValid && decide (v.confidence ≥ 40) then
    let o1 := { o0 with paymentStatus := .completed, verifiedAt := some now, verifiedBy := none }
    ⟨o1, [.persist .completed, .fulfill]⟩
  else if v.confidence ≥ 20 then
    let o1 := { o0 with
      paymentStatus := .pending_auto_approval
      verificationNotes := some (jsAppendNote o0.verificationNotes
        (" [Auto-approval in 5 minutes unless corrected - confidence: " ++
          toString v.confidence ++ "%]"))
      autoApprovalAt := some (now + 5 * 60 * 1000) }
    ⟨o1, [.persist .pending_auto_approval, .scheduleTimer (now + 5 * 60 * 1000)]⟩
  else if v.confidence ≥ 40 then
    let o1 := { o0 with
      paymentStatus := .pending_quick_review
      verificationNotes := some (jsAppendNote o0.verificationNotes
        (" [Quick review needed - confidence: " ++ toString v.confidence ++ "%]"))
      reviewPriority := .high }
    ⟨o1, [.persist .pending_quick_review]⟩
  else
    let o1 := { o0 with
      paymentStatus := .completed
      verifiedAt := some now
      verifiedBy := none
      verificationNotes := some (jsAppendNote o0.verificationNotes
        (" [Auto-approved with low confidence - confidence: " ++ toString v.confidence ++ "%]")) }
    ⟨o1, [.persist .completed, .fulfill]⟩

/-- Number of fulfillment invocations recorded in a trace. -/
def fulfillCount (tr : List Act) : ℕ := tr.count .fulfill

/-- The grace-period timer callback: re-read the current persisted order
(`none` models a deleted order) and apply the completion transition only
if the status is still `pending_auto_approval`; returns the new persisted
state and whether fulfillment was invoked. -/
def autoApprovalTimerFire (current : Option OrderRecord) (now : ℕ) :
    Option OrderRecord × Bool :=
  match current with
  | some o =>
    if o.paymentStatus = .pending_auto_approval then
      (some { o with
          paymentStatus := .completed
          verifiedAt := some now
          verifiedBy := none
          verificationNotes := some (jsAppendNote o.verificationNotes
            " [Auto-approved after 5-minute grace period]") }, true)
    else (some o, false)
  | none => (none, false)

/-! ## Manual admin verification (routes/admin, POST /orders/:id/verify) -/

/-- HTTP responses, restricted to what the handlers distinguish. -/
inductive Resp where
  | okJson
  | created
  | notFound
  | badRequest (msg : String)
  | serverError (msg : String)
deriving DecidableEq, Repr

/-- The set of payment statuses in which a manual admin verification
request is accepted. -/
def pendingVerificationSet : List PaymentStatus :=
  [.pending_verification, .pending_whatsapp_verification, .pending_auto_approval,
   .pending_quick_review]

/-- Result of an admin verification request: response, persisted order
(as stored after the request), parent event inventory, and action trace. -/
structure VerifyOutcome where
  resp : Resp
  order : Option OrderRecord
  event : EventRecord
  trace : List Act
deriving DecidableEq, Repr

/-- POST /api/admin/orders/:id/verify of routes/admin.js.  `fulfillment`
is the outcome of the awaited `generateAndSendTickets` call; a thrown
fulfillment error is rethrown and lands in the outer catch, producing the
500 response before any status write.  On reject the failed status is
saved first; the restoration loop then dereferences `order.event._id`,
and since the schema has no `event` path this evaluates undefined and
throws on the first iteration. -/
def adminVerifyPost (order? : Option OrderRecord) (event : EventRecord) (action : String)
    (notes : Option String) (adminId : Option String) (fulfillment : Except String Unit)
    (now : ℕ) : VerifyOutcome :=
  match order? with
  | none => ⟨.notFound, none, event, []⟩
  | some o =>
    if o.paymentStatus ∉ pendingVerificationSet then
      ⟨.badRequest "Order is not pending verification", some o, event, []⟩
    else if action = "approve" then
      match fulfillment with
      | .error _ => ⟨.serverError "Failed to process verification", some o, event, [.fulfillFailed]⟩
      | .ok _ =>
        let o1 := { o with
          paymentStatus := .completed
          verifiedBy := some (strOrDefault adminId "admin")
          verifiedAt := some now
          verificationNotes := some (strOrDefault notes "Manually approved by admin") }
        ⟨.okJson, some o1, event, [.fulfill, .persist .completed]⟩
    else if action = "reject" then
      let o1 := { o with
        paymentStatus := .failed
        verifiedBy := some (strOrDefault adminId "admin")
        verifiedAt := some now
        verificationNotes := some (strOrDefault notes "Rejected by admin") }
      match o.tickets with
      | [] => ⟨.okJson, some o1, event, [.persist .failed]⟩
      | _ :: _ =>
        match o.eventField with
        | none => ⟨.serverError "Failed to process verification", some o1, event, [.persist .failed]⟩
        | some ev =>
          ⟨.okJson, some o1, restoreTicketQuantities event ev.id o.tickets, [.persist .failed]⟩
    else
      ⟨.badRequest "Invalid action. Use approve or reject", some o, event, []⟩

/-- POST /api/mcb-juice/admin/reject-payment/:orderId of
routes/mcbJuiceManual.js: guard on `pending_verification` only, save the
failed status, then the same `order.event._id` dereference as the admin
reject branch. -/
def mcbRejectPayment (order? : Option OrderRecord) (event : EventRecord)
    (rejectionReason : Option String) (adminId : Option String) (now : ℕ) : VerifyOutcome :=
  match order? with
  | none => ⟨.notFound, none, event, []⟩
  | some o =>
    if o.paymentStatus ≠ .pending_verification then
      ⟨.badRequest "Order is not pending verification", some o, event, []⟩
    else
      let o1 := { o with
        paymentStatus := .failed
        verificationNotes := rejectionReason
        verifiedBy := adminId
        verifiedAt := some now }
      match o.tickets with
      | [] => ⟨.okJson, some o1, event, [.persist .failed]⟩
      | _ :: _ =>
        match o.eventField with
        | none => ⟨.serverError "Failed to reject payment", some o1, event, [.persist .failed]⟩
        | some ev =>
          ⟨.okJson, some o1, restoreTicketQuantities event ev.id o.tickets, [.persist .failed]⟩

/-- PUT /api/orders/:id/verify of routes/orders: writes the request-body
payment status unconditionally (no state guard), saves, and only then —
when the body said completed — attempts fulfillment, swallowing any
fulfillment error.  An out-of-enum or missing body status fails mongoose
validation on save and produces the 500 path with no mutation. -/
def putVerifyHandler (order? : Option OrderRecord) (paymentStatusBody : Option String)
    (verificationNotes verifiedBy : Option String) (fulfillment : Except String Unit)
    (now : ℕ) : Resp × Option OrderRecord × List Act :=
  match order? with
  | none => (.notFound, none, [])
  | some o =>
    match paymentStatusBody.bind paymentStatusOfString with
    | none => (.serverError "Failed to verify order", some o, [])
    | some ps =>
      let o1 := { o with
        paymentStatus := ps
        verificationNotes := if strTruthy verificationNotes then verificationNotes else o.verificationNotes
        verifiedBy := if strTruthy verifiedBy then verifiedBy else o.verifiedBy
        verifiedAt := some now }
      if paymentStatusBody = some "completed" then
        match fulfillment with
        | .ok _ => (.okJson, some o1, [.persist ps, .fulfill])
        | .error _ => (.okJson, some o1, [.persist ps, .fulfillFailed])
      else
        (.okJson, some o1, [.persist ps])

/-- PUT /api/orders/:id of routes/orders: sets the order `status` and
`paymentStatus` fields from the body when truthy, with no state guard;
an invalid enum value fails validation on save (500, no mutation). -/
def putOrderHandler (order? : Option OrderRecord) (statusBody paymentStatusBody : Option String) :
    Resp × Option OrderRecord :=
  match order? with
  | none => (.notFound, none)
  | some o =>
    let newStatus := if strTruthy statusBody then
        (statusBody.getD "", true) else ("", false)
    let newPayment := if strTruthy paymentStatusBody then
        (paymentStatusBody.getD "", true) else ("", false)
    if newStatus.2 ∧ (orderStatusOfString newStatus.1).isNone then
      (.serverError "Failed to update order", some o)
    else if newPayment.2 ∧ (paymentStatusOfString newPayment.1).isNone then
      (.serverError "Failed to update order", some o)
    else
      let o1 := match (if newStatus.2 then orderStatusOfString newStatus.1 else none) with
        | some st => { o with orderStatus := st }
        | none => o
      let o2 := match (if newPayment.2 then paymentStatusOfString newPayment.1 else none) with
        | some ps => { o1 with paymentStatus := ps }
        | none => o1
      (.okJson, some o2)

/-! ## Generic order creation (routes/orders, POST /) -/

/-- The request body of POST /api/orders, restricted to what the handler
reads; `hasCustomerInfo` models truthiness of the customerInfo object. -/
structure CreateOrderBody where
  eventId : Option String
  hasCustomerInfo : Bool
  tickets : Option (List TicketLine)
  totalAmount : Option ℚ
  paymentMethod : Option String
  paymentStatus : Option String
deriving DecidableEq, Repr

/-- Result of POST /api/orders: response, persisted order, and whether
the ticket-confirmation email send was attempted. -/
structure CreateOutcome where
  resp : Resp
  order : Option OrderRecord
  emailAttempted : Bool
deriving DecidableEq, Repr

/-- POST /api/orders of routes/orders: defaults `paymentMethod` to card
and `paymentStatus` to completed via JavaScript truthy-or, persists the
order, and attempts the ticket email only when the raw body value of
`paymentStatus` strictly equals the string completed. -/
def createOrderHandler (body : CreateOrderBody) (eventExists : Bool) (newId : String) :
    CreateOutcome :=
  if ¬(strTruthy body.eventId ∧ body.hasCustomerInfo ∧ body.tickets.isSome ∧
        numTruthy body.totalAmount) then
    ⟨.badRequest "Missing required fields: eventId, customerInfo, tickets, totalAmount",
     none, false⟩
  else if ¬eventExists then ⟨.notFound, none, false⟩
  else
    let pm := strOrDefault body.paymentMethod "card"
    let ps := strOrDefault body.paymentStatus "completed"
    match paymentMethodOfString pm, paymentStatusOfString ps with
    | some pmv, some psv =>
      let o : OrderRecord :=
        { id := newId
          eventId := body.eventId.getD ""
          tickets := body.tickets.getD []
          totalAmount := body.totalAmount.getD 0
          paymentMethod := pmv
          paymentStatus := psv
          paymentReference := none
          transferScreenshot := none
          verificationNotes := none
          verifiedBy := none
          verifiedAt := none
          autoApprovalAt := none
          reviewPriority := .standard
          orderStatus := .confirmed }
      ⟨.created, some o, body.paymentStatus = some "completed"⟩
    | _, _ => ⟨.serverError "Failed to create order", none, false⟩

/-! ## Specification-side definitions and sample inputs

The two reference-selection policies compared in the refinement claim
about the parser, plus concrete documents used by witnesses and
counterexamples. -/

/-- Reference field per line: the leftmost match of the reference pattern
on that line. -/
def lineReference (l : String) : Option (List Char) := scanFirst referenceAt l.toList

/-- Modelled from the spec words (first match wins): the reference taken
from the FIRST line whose reference pattern matches. -/
def firstMatchReference (text : String) : Option String :=
  (((receiptLines text).filterMap lineReference).head?).map String.mk

/-- The selection the code actually implements: the reference taken from
the LAST line whose reference pattern matches. -/
def lastMatchReference (text : String) : Option String :=
  (((receiptLines text).filterMap lineReference).getLast?).map String.mk

/-- A sample screenshot-based order awaiting verification. -/
def sampleOrder : OrderRecord :=
  { id := "order1"
    eventId := "ev1"
    tickets := [⟨"tt1", "General", 2, 50⟩]
    totalAmount := 150
    paymentMethod := .mcb_juice
    paymentStatus := .pending_verification
    paymentReference := some "TCK12345"
    transferScreenshot := some "uploads/transfer-1.png"
    verificationNotes := none
    verifiedBy := none
    verifiedAt := none
    autoApprovalAt := none
    reviewPriority := .standard
    orderStatus := .confirmed }

/-- The sample order sitting in the grace-period state. -/
def sampleGraceOrder : OrderRecord :=
  { sampleOrder with paymentStatus := .pending_auto_approval, autoApprovalAt := some 300000 }

/-- The sample order already rejected. -/
def sampleFailedOrder : OrderRecord :=
  { sampleOrder with paymentStatus := .failed }

/-- The sample order already completed. -/
def sampleCompletedOrder : OrderRecord :=
  { sampleOrder with paymentStatus := .completed }

/-- The parent event of the sample order, with inventory on hand. -/
def sampleEvent : EventRecord :=
  ⟨"ev1", [⟨"tt1", "General", 50, 8, 2⟩]⟩

/-- Receipt text with matching amount and reference (spec Scenario A). -/
def receiptTextA : String := "Rs 150.00 sent\nRef: TCK12345"

/-- Receipt text carrying only a transaction id, scoring in the
grace-period band. -/
def receiptTextB : String := "Transaction id: AB12345678"

/-- Receipt text from which nothing at all is parsed (spec Scenario D). -/
def receiptTextD : String := "Payment screenshot"

/-- The candidate record of spec Scenario A, as a parsed structure. -/
def candidateA : ReceiptData :=
  ⟨some 150, some "TCK12345", none, none, none, none, ""⟩

/-! ## Parser lemmas: which line the reference field comes from -/

/-- The amount update never touches the reference field. -/
theorem applyAmount_reference (rd : ReceiptData) (cs : List Char) :
    (applyAmount rd cs).reference = rd.reference := by
  unfold applyAmount
  cases scanFirst amountAt cs
  · rfl
  · dsimp only
    split <;> rfl

/-- The transaction update never touches the reference field. -/
theorem applyTransaction_reference (rd : ReceiptData) (cs : List Char) :
    (applyTransaction rd cs).reference = rd.reference := by
  unfold applyTransaction
  cases scanFirst transactionAt cs
  · rfl
  · dsimp only
    split <;> rfl

/-- The date update never touches the reference field. -/
theorem applyDate_reference (rd : ReceiptData) (cs : List Char) :
    (applyDate rd cs).reference = rd.reference := by
  unfold applyDate
  cases scanFirst dateAt cs
  · rfl
  · dsimp only
    split <;> rfl

/-- The time update never touches the reference field. -/
theorem applyTime_reference (rd : ReceiptData) (cs : List Char) :
    (applyTime rd cs).reference = rd.reference := by
  unfold applyTime
  cases scanFirst timeAt cs
  · rfl
  · dsimp only
    split <;> rfl

/-- The recipient update never touches the reference field. -/
theorem applyRecipient_reference (rd : ReceiptData) (cs : List Char) :
    (applyRecipient rd cs).reference = rd.reference := by
  unfold applyRecipient
  cases scanFirst recipientAt cs
  · rfl
  · dsimp only
    split <;> rfl

/-- The reference update overwrites unconditionally on a match and keeps
the accumulator otherwise. -/
theorem applyReference_reference (rd : ReceiptData) (cs : List Char) :
    (applyReference rd cs).reference =
      (match scanFirst referenceAt cs with
       | some r => some (String.mk r)
       | none => rd.reference) := by
  unfold applyReference
  cases scanFirst referenceAt cs <;> rfl

/-- One parser-loop iteration on the reference field. -/
theorem parseLine_reference (rd : ReceiptData) (l : String) :
    (parseLine rd l).reference =
      (match lineReference l with
       | some r => some (String.mk r)
       | none => rd.reference) := by
  unfold parseLine lineReference
  rw [applyRecipient_reference, applyTime_reference, applyDate_reference,
    applyTransaction_reference, applyReference_reference]
  cases scanFirst referenceAt l.toList
  · exact applyAmount_reference rd l.toList
  · rfl

/-- Folding the parser loop: the reference field ends up being the match
from the last matching line. -/
theorem foldl_parseLine_reference (lines : List String) (rd : ReceiptData) :
    (lines.foldl parseLine rd).reference =
      (match (lines.filterMap lineReference).getLast? with
       | some r => some (String.mk r)
       | none => rd.reference) := by
  induction lines generalizing rd with
  | nil => rfl
  | cons l ls ih =>
    rw [List.foldl_cons, ih, List.filterMap_cons]
    cases h : lineReference l with
    | none => simp [parseLine_reference, h]
    | some r =>
      cases hrest : ls.filterMap lineReference with
      | nil => simp [parseLine_reference, h, hrest]
      | cons r2 t =>
        dsimp only
        rw [List.getLast?_cons_cons]
        cases hg : (r2 :: t).getLast? with
        | none => simp at hg
        | some v => rfl

/-- C9 counterexample: on a receipt whose first and second lines both
match the reference pattern, the parser returns the token of the second
line, not the first — the claim that the first match wins is false at
this input. -/
theorem C9_counterexample :
    (parseReceiptData "Ref: TCK11111\nRef: TCK22222").reference = some "TCK22222" ∧
    firstMatchReference "Ref: TCK11111\nRef: TCK22222" = some "TCK11111" ∧
    (parseReceiptData "Ref: TCK11111\nRef: TCK22222").reference ≠
      firstMatchReference "Ref: TCK11111\nRef: TCK22222" := by
  decide

/-- C9 (amended): for every input text, the reference field of the parsed
candidate is the match from the LAST line containing a reference keyword
followed by a reference-code token; later matching lines replace earlier
ones because the reference branch of the parser loop has no
already-found guard. -/
theorem C9_amended (text : String) :
    (parseReceiptData text).reference = lastMatchReference text := by
  unfold parseReceiptData lastMatchReference
  rw [foldl_parseLine_reference]
  cases h : ((receiptLines text).filterMap lineReference).getLast? <;>
    simp [h, emptyReceipt]

/-! ## Timer, guard and handler theorems -/

/-- C3: the grace-period timer callback re-reads the persisted status and
applies its transition only when that status is still
pending_auto_approval; an order already rejected is left as failed with
no fulfillment, and firing the timer twice yields exactly one completion
transition and exactly one fulfillment call. -/
theorem C3_timer_recheck (o : OrderRecord) (now1 now2 : ℕ) :
    (o.paymentStatus = .failed →
      autoApprovalTimerFire (some o) now1 = (some o, false)) ∧
    (o.paymentStatus = .pending_auto_approval →
      (autoApprovalTimerFire (some o) now1).2 = true ∧
      ((autoApprovalTimerFire (some o) now1).1.map OrderRecord.paymentStatus =
        some .completed) ∧
      autoApprovalTimerFire (autoApprovalTimerFire (some o) now1).1 now2 =
        ((autoApprovalTimerFire (some o) now1).1, false) ∧
      ((if (autoApprovalTimerFire (some o) now1).2 then 1 else 0) +
        (if (autoApprovalTimerFire (autoApprovalTimerFire (some o) now1).1 now2).2
          then 1 else 0) = 1)) := by
  constructor
  · intro h
    simp [autoApprovalTimerFire, h]
  · intro h
    simp [autoApprovalTimerFire, h]

/-- C3 witness: the guard and idempotence facts at the sample orders. -/
theorem C3_timer_recheck_witness :
    autoApprovalTimerFire (some sampleFailedOrder) 300000 = (some sampleFailedOrder, false) ∧
    (autoApprovalTimerFire (some sampleGraceOrder) 300000).2 = true ∧
    autoApprovalTimerFire (autoApprovalTimerFire (some sampleGraceOrder) 300000).1 600000 =
      ((autoApprovalTimerFire (some sampleGraceOrder) 300000).1, false) :=
  ⟨(C3_timer_recheck sampleFailedOrder 300000 600000).1 rfl,
   ((C3_timer_recheck sampleGraceOrder 300000 600000).2 rfl).1,
   ((C3_timer_recheck sampleGraceOrder 300000 600000).2 rfl).2.2.1⟩

/-- C6 counterexample: a completed (terminal) order is mutated back to
failed by PUT /api/orders/:id, which applies the body paymentStatus with
no state guard — the terminal-immutability part of the claim is false at
this input. -/
theorem C6_counterexample :
    sampleCompletedOrder.paymentStatus = .completed ∧
    (putOrderHandler (some sampleCompletedOrder) none (some "failed")).1 = .okJson ∧
    ((putOrderHandler (some sampleCompletedOrder) none (some "failed")).2.map
      OrderRecord.paymentStatus) = some .failed := by
  decide

/-- C6 (amended): the admin verify endpoint itself accepts a request only
while the status is in the pending-verification family and otherwise
replies with the conflict error and performs no mutation (order, event
and trace untouched); but terminal statuses are not immutable globally,
since the unguarded order-update routes can overwrite them. -/
theorem C6_amended (o : OrderRecord) (event : EventRecord) (action : String)
    (notes adminId : Option String) (f : Except String Unit) (now : ℕ)
    (h : o.paymentStatus ∉ pendingVerificationSet) :
    adminVerifyPost (some o) event action notes adminId f now =
      ⟨.badRequest "Order is not pending verification", some o, event, []⟩ := by
  simp [adminVerifyPost, h]

/-- C6 witness: the guard at a concrete completed order. -/
theorem C6_amended_witness :
    adminVerifyPost (some sampleCompletedOrder) sampleEvent "approve" none none (.ok ()) 0 =
      ⟨.badRequest "Order is not pending verification", some sampleCompletedOrder,
        sampleEvent, []⟩ :=
  C6_amended sampleCompletedOrder sampleEvent "approve" none none (.ok ()) 0 (by decide)

/-- C4 counterexample: via PUT /api/orders/:id/verify an admin approval
with failing fulfillment still persists completed, surfaces no error
(200), and the trace shows the status was persisted before fulfillment
was attempted — the claim quantified over every manual admin approval is
false at this input. -/
theorem C4_counterexample :
    sampleOrder.paymentStatus = .pending_verification ∧
    (putVerifyHandler (some sampleOrder) (some "completed") none none
      (.error "delivery failed") 0).1 = .okJson ∧
    ((putVerifyHandler (some sampleOrder) (some "completed") none none
      (.error "delivery failed") 0).2.1.map OrderRecord.paymentStatus) = some .completed ∧
    (putVerifyHandler (some sampleOrder) (some "completed") none none
      (.error "delivery failed") 0).2.2 = [.persist .completed, .fulfillFailed] := by
  decide

/-- C4 (amended): for approvals through POST /api/admin/orders/:id/verify
the claim holds — a failing fulfillment yields the 500 response with the
order left in its pre-approval pending state, and on success the trace
shows fulfillment strictly before the completed status is persisted. -/
theorem C4_amended (o : OrderRecord) (event : EventRecord) (notes adminId : Option String)
    (f : Except String Unit) (now : ℕ) (h : o.paymentStatus ∈ pendingVerificationSet) :
    (∀ e, f = .error e →
      adminVerifyPost (some o) event "approve" notes adminId f now =
        ⟨.serverError "Failed to process verification", some o, event, [.fulfillFailed]⟩) ∧
    (f = .ok () →
      (adminVerifyPost (some o) event "approve" notes adminId f now).resp = .okJson ∧
      ((adminVerifyPost (some o) event "approve" notes adminId f now).order.map
        OrderRecord.paymentStatus) = some .completed ∧
      (adminVerifyPost (some o) event "approve" notes adminId f now).trace =
        [.fulfill, .persist .completed]) := by
  constructor
  · rintro e rfl
    simp [adminVerifyPost, h]
  · rintro rfl
    simp [adminVerifyPost, h]

/-- C4 witness: both fulfillment outcomes at the sample pending order. -/
theorem C4_amended_witness :
    adminVerifyPost (some sampleOrder) sampleEvent "approve" none none
      (.error "generation failed") 0 =
      ⟨.serverError "Failed to process verification", some sampleOrder, sampleEvent,
        [.fulfillFailed]⟩ ∧
    (adminVerifyPost (some sampleOrder) sampleEvent "approve" none none (.ok ()) 0).trace =
      [.fulfill, .persist .completed] :=
  ⟨(C4_amended sampleOrder sampleEvent none none (.error "generation failed") 0
      (by decide)).1 "generation failed" rfl,
   ((C4_amended sampleOrder sampleEvent none none (.ok ()) 0 (by decide)).2 rfl).2.2⟩

/-- C5: at the failing input — a pending order with one ticket line,
rejected by an admin — both reject handlers persist the failed status but
then throw on the `order.event` dereference (the schema has no such
path), reply 500 and leave the event inventory unchanged, although the
restoration the claim describes would have changed it. -/
theorem C5_reject_inventory_bug :
    (adminVerifyPost (some sampleOrder) sampleEvent "reject" none (some "admin1")
      (.ok ()) 0).resp = .serverError "Failed to process verification" ∧
    ((adminVerifyPost (some sampleOrder) sampleEvent "reject" none (some "admin1")
      (.ok ()) 0).order.map OrderRecord.paymentStatus) = some .failed ∧
    (adminVerifyPost (some sampleOrder) sampleEvent "reject" none (some "admin1")
      (.ok ()) 0).event = sampleEvent ∧
    restoreTicketQuantities sampleEvent sampleOrder.eventId sampleOrder.tickets ≠
      sampleEvent ∧
    (mcbRejectPayment (some sampleOrder) sampleEvent none (some "admin1") 0).resp =
      .serverError "Failed to reject payment" ∧
    (mcbRejectPayment (some sampleOrder) sampleEvent none (some "admin1") 0).event =
      sampleEvent := by
  decide

/-- C10: a POST /api/orders body that omits paymentStatus (and
paymentMethod) is persisted as a completed card order — a terminal state
outside the verification family — while the ticket-confirmation email is
not attempted, because the email check tests the raw body value. -/
theorem C10_default_completed_no_email (body : CreateOrderBody) (eventExists : Bool)
    (newId : String) (hps : body.paymentStatus = none) (hpm : body.paymentMethod = none)
    (hev : strTruthy body.eventId = true) (hci : body.hasCustomerInfo = true)
    (ht : body.tickets.isSome = true) (hta : numTruthy body.totalAmount = true)
    (hex : eventExists = true) :
    (createOrderHandler body eventExists newId).resp = .created ∧
    ((createOrderHandler body eventExists newId).order.map OrderRecord.paymentStatus) =
      some .completed ∧
    ((createOrderHandler body eventExists newId).order.map OrderRecord.paymentMethod) =
      some .card ∧
    (createOrderHandler body eventExists newId).emailAttempted = false ∧
    PaymentStatus.completed ∉ pendingVerificationSet := by
  subst hex
  simp [createOrderHandler, hps, hpm, hev, hci, ht, hta, strOrDefault,
    paymentStatusOfString, paymentMethodOfString, pendingVerificationSet]

/-- C10 witness: a concrete body omitting payment fields. -/
theorem C10_default_completed_no_email_witness :
    (createOrderHandler ⟨some "ev1", true, some [⟨"tt1", "General", 2, 50⟩], some 150,
      none, none⟩ true "order2").resp = .created ∧
    ((createOrderHandler ⟨some "ev1", true, some [⟨"tt1", "General", 2, 50⟩], some 150,
      none, none⟩ true "order2").order.map OrderRecord.paymentStatus) = some .completed ∧
    (createOrderHandler ⟨some "ev1", true, some [⟨"tt1", "General", 2, 50⟩], some 150,
      none, none⟩ true "order2").emailAttempted = false := by
  have h := C10_default_completed_no_email
    ⟨some "ev1", true, some [⟨"tt1", "General", 2, 50⟩], some 150, none, none⟩
    true "order2" rfl rfl (by decide) rfl (by decide) (by decide) rfl
  exact ⟨h.1, h.2.1, h.2.2.2.1⟩

/-! ## Scorer and router theorems -/

/-- The scorer validity flag is exactly the forty-point threshold on the
confidence it returns. -/
theorem scoreReceipt_isValid (rd : ReceiptData) (ea : ℚ) (er : String)
    (erc : Option String) :
    (scoreReceipt rd ea er erc).isValid =
      decide (40 ≤ (scoreReceipt rd ea er erc).confidence) := by
  rcases rd with ⟨am, rf, tx, dt, tm, rc, raw⟩
  cases am <;> cases rf <;> cases erc <;> cases rc <;>
    simp only [scoreReceipt] <;> first
    | rfl
    | (split_ifs <;> rfl)

/-- The same threshold equation for the full verifyReceipt pipeline,
including the catch clause. -/
theorem verifyReceipt_isValid (ext : Except String String) (ea : ℚ) (er : String)
    (erc : Option String) :
    (verifyReceipt ext ea er erc).isValid =
      decide (40 ≤ (verifyReceipt ext ea er erc).confidence) := by
  cases ext with
  | ok t => exact scoreReceipt_isValid (parseReceiptData t) ea er erc
  | error m => rfl

/-- C1 counterexample: a verification attempt scoring below twenty (the
Scenario D receipt, confidence ten) is routed to completed with one
immediate fulfillment call, not to pending_quick_review — the claim is
false at this input. -/
theorem C1_counterexample :
    (verifyReceipt (.ok receiptTextD) 150 "TCK12345" none).confidence = 10 ∧
    (verifyReceipt (.ok receiptTextD) 150 "TCK12345" none).confidence < 20 ∧
    (processAutomaticVerification sampleOrder
      (verifyReceipt (.ok receiptTextD) 150 "TCK12345" none) 0).order.paymentStatus =
      .completed ∧
    (processAutomaticVerification sampleOrder
      (verifyReceipt (.ok receiptTextD) 150 "TCK12345" none) 0).order.paymentStatus ≠
      .pending_quick_review ∧
    fulfillCount (processAutomaticVerification sampleOrder
      (verifyReceipt (.ok receiptTextD) 150 "TCK12345" none) 0).trace = 1 := by
  decide

/-- C1 (amended): every verification attempt with confidence below twenty
is auto-approved — the router persists completed and invokes fulfillment
exactly once at decision time; the pending_quick_review branch is dead
for such attempts. -/
theorem C1_amended (ext : Except String String) (ea : ℚ) (er : String)
    (erc : Option String) (o : OrderRecord) (now : ℕ)
    (h : (verifyReceipt ext ea er erc).confidence < 20) :
    (processAutomaticVerification o (verifyReceipt ext ea er erc) now).order.paymentStatus =
      .completed ∧
    fulfillCount (processAutomaticVerification o
      (verifyReceipt ext ea er erc) now).trace = 1 := by
  have h40 : ¬(40 ≤ (verifyReceipt ext ea er erc).confidence) := by omega
  have h20 : ¬(20 ≤ (verifyReceipt ext ea er erc).confidence) := by omega
  simp [processAutomaticVerification, h40, h20, fulfillCount]

/-- C1 witness: the amended behavior at the Scenario D receipt. -/
theorem C1_amended_witness :
    (processAutomaticVerification sampleOrder
      (verifyReceipt (.ok receiptTextD) 150 "TCK12345" none) 0).order.paymentStatus =
      .completed :=
  (C1_amended (.ok receiptTextD) 150 "TCK12345" none sampleOrder 0 (by decide)).1

/-- C2: the two approval bands of the tier router — any attempt scoring
at least forty is persisted completed with exactly one fulfillment call,
and any attempt scoring in the twenty-to-forty band is persisted
pending_auto_approval with autoApprovalAt five minutes after decision
time, no fulfillment at decision time, and the grace-period timer
scheduled for that same instant. -/
theorem C2_tier_router (ext : Except String String) (ea : ℚ) (er : String)
    (erc : Option String) (o : OrderRecord) (now : ℕ) :
    (40 ≤ (verifyReceipt ext ea er erc).confidence →
      (processAutomaticVerification o
        (verifyReceipt ext ea er erc) now).order.paymentStatus = .completed ∧
      fulfillCount (processAutomaticVerification o
        (verifyReceipt ext ea er erc) now).trace = 1) ∧
    (20 ≤ (verifyReceipt ext ea er erc).confidence ∧
        (verifyReceipt ext ea er erc).confidence < 40 →
      (processAutomaticVerification o
        (verifyReceipt ext ea er erc) now).order.paymentStatus = .pending_auto_approval ∧
      (processAutomaticVerification o
        (verifyReceipt ext ea er erc) now).order.autoApprovalAt =
        some (now + 5 * 60 * 1000) ∧
      fulfillCount (processAutomaticVerification o
        (verifyReceipt ext ea er erc) now).trace = 0 ∧
      (processAutomaticVerification o (verifyReceipt ext ea er erc) now).trace =
        [.persist .pending_auto_approval, .scheduleTimer (now + 5 * 60 * 1000)]) := by
  have hv := verifyReceipt_isValid ext ea er erc
  constructor
  · intro h
    have hvt : (verifyReceipt ext ea er erc).isValid = true := by
      rw [hv]; simpa using h
    simp [processAutomaticVerification, hvt, h, fulfillCount]
  · rintro ⟨h20, h40⟩
    have hle : ¬(40 ≤ (verifyReceipt ext ea er erc).confidence) := by omega
    have hvf : (verifyReceipt ext ea er erc).isValid = false := by
      rw [hv]; simpa using hle
    simp [processAutomaticVerification, hvf, h20, hle, fulfillCount]

/-- C2 witness: Scenario A lands in immediate approval; a
transaction-id-only receipt lands in the grace-period band. -/
theorem C2_tier_router_witness :
    (processAutomaticVerification sampleOrder
      (verifyReceipt (.ok receiptTextA) 150 "TCK12345" none) 0).order.paymentStatus =
      .completed ∧
    (processAutomaticVerification sampleOrder
      (verifyReceipt (.ok receiptTextB) 150 "TCK12345" none) 0).order.paymentStatus =
      .pending_auto_approval ∧
    (processAutomaticVerification sampleOrder
      (verifyReceipt (.ok receiptTextB) 150 "TCK12345" none) 0).order.autoApprovalAt =
      some 300000 := by
  refine ⟨((C2_tier_router (.ok receiptTextA) 150 "TCK12345" none sampleOrder 0).1
      (by decide)).1, ?_, ?_⟩
  · exact ((C2_tier_router (.ok receiptTextB) 150 "TCK12345" none sampleOrder 0).2
      ⟨by decide, by decide⟩).1
  · have h := ((C2_tier_router (.ok receiptTextB) 150 "TCK12345" none sampleOrder 0).2
      ⟨by decide, by decide⟩).2.1
    simpa using h

/-- The verification note computed for the zero-confidence catch result,
evaluated to its literal text. -/
theorem failedVerification_note (msg : String) :
    verificationBaseNote (failedVerification msg) =
      "Automatic verification: 0% confidence. Issues: Failed to process receipt image" := by
  have h : verificationBaseNote (failedVerification msg) =
      "Automatic verification: " ++ toString (0 : ℕ) ++ "% confidence. Issues: " ++
        String.intercalate ", " ["Failed to process receipt image"] := rfl
  rw [h]
  decide

/-- C7: an extraction failure is converted by the scorer catch clause
into a zero-confidence invalid result with the generic issue, and the
router still completes the order with exactly one fulfillment call,
recording the failure in the verification note (fail-open approval). -/
theorem C7_fail_open_on_extraction_error (msg : String) (ea : ℚ) (er : String)
    (erc : Option String) (o : OrderRecord) (now : ℕ) :
    (verifyReceipt (.error msg) ea er erc).confidence = 0 ∧
    (verifyReceipt (.error msg) ea er erc).isValid = false ∧
    (verifyReceipt (.error msg) ea er erc).issues = ["Failed to process receipt image"] ∧
    (processAutomaticVerification o
      (verifyReceipt (.error msg) ea er erc) now).order.paymentStatus = .completed ∧
    fulfillCount (processAutomaticVerification o
      (verifyReceipt (.error msg) ea er erc) now).trace = 1 ∧
    (processAutomaticVerification o
      (verifyReceipt (.error msg) ea er erc) now).order.verificationNotes =
      some ("Automatic verification: 0% confidence. Issues: Failed to process receipt image" ++
        " [Auto-approved with low confidence - confidence: 0%]") :=
  ⟨rfl, rfl, rfl, rfl, rfl, by
    have h0 : (processAutomaticVerification o
        (verifyReceipt (.error msg) ea er erc) now).order.verificationNotes =
        some (jsAppendNote (some (verificationBaseNote (failedVerification msg)))
          (" [Auto-approved with low confidence - confidence: " ++
            toString (failedVerification msg).confidence ++ "%]")) := rfl
    have h1 : (failedVerification msg).confidence = 0 := rfl
    rw [h0, failedVerification_note msg, h1]
    simp only [jsAppendNote]
    decide⟩

/-- Characterization of the four check booleans the scorer stores. -/
theorem scoreReceipt_checks (rd : ReceiptData) (ea : ℚ) (er : String)
    (erc : Option String) :
    (scoreReceipt rd ea er erc).checks =
      ⟨(match rd.amount with
        | some a => if a = 0 then false else decide (|a - ea| ≤ 1 / 100)
        | none => false),
       (match rd.reference with
        | some r => if r = "" then false else decide (r = er)
        | none => false),
       (match erc, rd.recipient with
        | some e, some f =>
          if e = "" ∨ f = "" then true
          else (strIncludes (stripSpaces f) (stripSpaces e) ||
            strIncludes (stripSpaces e) (stripSpaces f))
        | _, _ => true),
       strTruthy rd.transactionId⟩ := by
  rcases rd with ⟨am, rf, tx, dt, tm, rc, raw⟩
  cases am <;> cases rf <;> cases erc <;> cases rc <;>
    simp only [scoreReceipt] <;> split_ifs <;> simp_all

/-- The confidence the scorer returns is the weighted sum of the check
booleans it stores. -/
theorem scoreReceipt_confidence (rd : ReceiptData) (ea : ℚ) (er : String)
    (erc : Option String) :
    (scoreReceipt rd ea er erc).confidence =
      (if (scoreReceipt rd ea er erc).checks.amountMatch then 40 else 0) +
      (if (scoreReceipt rd ea er erc).checks.referenceMatch then 40 else 0) +
      (if (scoreReceipt rd ea er erc).checks.recipientMatch then 10 else 0) +
      (if (scoreReceipt rd ea er erc).checks.hasTransactionId then 10 else 0) := by
  rcases rd with ⟨am, rf, tx, dt, tm, rc, raw⟩
  cases am <;> cases rf <;> cases erc <;> cases rc <;>
    simp only [scoreReceipt] <;> split_ifs <;> rfl

/-- C8: the scorer confidence is the sum of the fixed binary weights —
forty for the amount check, forty for the reference check, ten for the
recipient check (true by default when no expected recipient is supplied),
ten for transaction id presence — validity holds exactly at confidence at
least forty, and the Scenario A candidate scores ninety and is valid. -/
theorem C8_scorer_weights (rd : ReceiptData) (ea : ℚ) (er : String) (erc : Option String) :
    ((scoreReceipt rd ea er erc).confidence =
      (if (scoreReceipt rd ea er erc).checks.amountMatch then 40 else 0) +
      (if (scoreReceipt rd ea er erc).checks.referenceMatch then 40 else 0) +
      (if (scoreReceipt rd ea er erc).checks.recipientMatch then 10 else 0) +
      (if (scoreReceipt rd ea er erc).checks.hasTransactionId then 10 else 0)) ∧
    ((scoreReceipt rd ea er erc).isValid = true ↔
      40 ≤ (scoreReceipt rd ea er erc).confidence) ∧
    (∀ a, rd.amount = some a → a ≠ 0 →
      ((scoreReceipt rd ea er erc).checks.amountMatch = true ↔ |a - ea| ≤ 1 / 100)) ∧
    (∀ r, rd.reference = some r → r ≠ "" →
      ((scoreReceipt rd ea er erc).checks.referenceMatch = true ↔ r = er)) ∧
    (erc = none → (scoreReceipt rd ea er erc).checks.recipientMatch = true) ∧
    ((scoreReceipt rd ea er erc).checks.hasTransactionId = strTruthy rd.transactionId) ∧
    (scoreReceipt candidateA 150 "TCK12345" none).confidence = 90 ∧
    (scoreReceipt candidateA 150 "TCK12345" none).isValid = true ∧
    (scoreReceipt candidateA 150 "TCK12345" none).checks = ⟨true, true, true, false⟩ := by
  refine ⟨scoreReceipt_confidence rd ea er erc, ?_, ?_, ?_, ?_, ?_,
    by norm_num [scoreReceipt, candidateA, strTruthy] <;> decide,
    by norm_num [scoreReceipt, candidateA, strTruthy] <;> decide,
    by norm_num [scoreReceipt, candidateA, strTruthy] <;> decide⟩
  · rw [scoreReceipt_isValid]
    simp
  · intro a ha hne
    rw [scoreReceipt_checks]
    simp [ha, hne]
  · intro r hr hne
    rw [scoreReceipt_checks]
    simp [hr, hne]
  · intro h
    rw [scoreReceipt_checks]
    subst h
    rfl
  · rw [scoreReceipt_checks]

/-- C8 witness: the amount check and the recipient default, discharged at
the Scenario A candidate. -/
theorem C8_scorer_weights_witness :
    (scoreReceipt candidateA 150 "TCK12345" none).checks.amountMatch = true ∧
    (scoreReceipt candidateA 150 "TCK12345" none).checks.recipientMatch = true :=
  ⟨((C8_scorer_weights candidateA 150 "TCK12345" none).2.2.1 150 rfl
      (by norm_num)).mpr (by norm_num),
   (C8_scorer_weights candidateA 150 "TCK12345" none).2.2.2.2.1 rfl⟩

end Ticketeer
